import Mathlib

/-!
Verification development for the jal-drishti backend core
(frame scheduler, ML worker admission control, ML service safe mode,
source manager state machine, viewer registry and broadcast fan-out).

Each definition is a shallow embedding of a function or thread of the
Python source under `backend/app/`; the file and line numbers of the
embedded code are given next to each definition.  Machine time stamps
are modelled as rationals, frames by their integer frame id.
-/

namespace JalDrishti

namespace Scheduler

/-- Control position of the single background ML worker thread
(`FrameScheduler._ml_worker`, frame_scheduler.py lines 50-124):
either between loop iterations (`idle`) or inside the
`self.ml_module.run_inference(frame)` call (`busy f`, line 74). -/
inductive WPhase
  | idle
  | busy (frameId : Nat)
  deriving DecidableEq, Repr

/-- Shared state of the scheduler loop and the ML worker thread
(frame_scheduler.py lines 32-48):
`mlReady` is the `self.ml_ready` threading.Event,
`latestFrame` the single-slot `self.latest_frame` buffer guarded by
`self.latest_frame_lock`, `lastResultId` the frame id stored into
`self.last_ml_result` (line 87).  `inflight` counts the calls to
`run_inference` that have started (line 74) and not yet returned;
`phase` is the worker program counter. -/
structure WorkerState where
  mlReady : Bool
  latestFrame : Option Nat
  phase : WPhase
  inflight : Nat
  lastResultId : Option Nat
  deriving DecidableEq, Repr

/-- Initial state (frame_scheduler.py lines 34-48): `ml_ready.set()` at
construction, empty slot, no result, worker idle. -/
def initState : WorkerState :=
  { mlReady := true
    latestFrame := none
    phase := .idle
    inflight := 0
    lastResultId := none }

/-- Atomic actions of the two threads.  `submit` is the scheduler body
at frame_scheduler.py lines 163-173 (one critical section per branch).
`take` is the worker grabbing the slot (lines 64-69) and entering
`run_inference` (line 74); since `self.ml_ready.wait(timeout=1.0)`
(line 60) returns after at most one second whether or not the event is
set, the take is enabled regardless of `mlReady`.  `takeSkip` is the
worker finding the slot empty and looping (lines 66-67).  `complete` is
`run_inference` returning: the result is stored (lines 86-90) and the
`finally` block sets `ml_ready` (line 122). -/
inductive SchedAct
  | submit (f : Nat)
  | take
  | takeSkip
  | complete
  deriving DecidableEq, Repr

/-- One atomic step; `none` when the action is not enabled in `s`. -/
def stepAct (s : WorkerState) : SchedAct → Option WorkerState
  | .submit f =>
      -- lines 165-173: if ml_ready is set, store the frame and clear
      -- the event; otherwise overwrite the slot (drop older).
      if s.mlReady then
        some { s with latestFrame := some f, mlReady := false }
      else
        some { s with latestFrame := some f }
  | .take =>
      match s.phase, s.latestFrame with
      | .idle, some g =>
          -- lines 65-69 then line 74: take the slot content, set the
          -- slot to None, begin the inference call.
          some { s with latestFrame := none, phase := .busy g, inflight := s.inflight + 1 }
      | _, _ => none
  | .takeSkip =>
      match s.phase, s.latestFrame with
      | .idle, none => some s
      | _, _ => none
  | .complete =>
      match s.phase with
      | .busy g =>
          -- lines 75-90 and 120-122: store the result, then ml_ready.set().
          some { s with phase := .idle, inflight := s.inflight - 1,
                        mlReady := true, lastResultId := some g }
      | _ => none

/-- Run a list of atomic actions from a state. -/
def runActs : WorkerState → List SchedAct → Option WorkerState
  | s, [] => some s
  | s, a :: rest =>
      match stepAct s a with
      | some s1 => runActs s1 rest
      | none => none

/-- A state is reachable when some interleaving of scheduler and worker
steps produces it from the initial state. -/
def Reachable (s : WorkerState) : Prop :=
  ∃ acts : List SchedAct, runActs initState acts = some s

/-- Number of inference calls a worker in the given phase has open. -/
def phaseLoad : WPhase → Nat
  | .idle => 0
  | .busy _ => 1

/-- The frame the slot holds after a list of actions, starting from an
initial slot value: a submit overwrites it, a take empties it, the
other actions leave it alone.  This is the "most recently submitted
frame since the last take". -/
def lastSubAcc : Option Nat → List SchedAct → Option Nat
  | acc, [] => acc
  | _, .submit f :: rest => lastSubAcc (some f) rest
  | _, .take :: rest => lastSubAcc none rest
  | acc, .takeSkip :: rest => lastSubAcc acc rest
  | acc, .complete :: rest => lastSubAcc acc rest

/-- One detection entry of an inference result. -/
structure Detection where
  label : String
  confidence : ℚ
  bbox : List ℚ
  deriving DecidableEq, Repr

/-- The dictionary stored in `self.last_ml_result`
(frame_scheduler.py lines 86-90): a copy of the `MLService.run_inference`
return value plus the keys added by the worker. -/
structure StoredResult where
  detections : List Detection
  maxConfidence : ℚ
  state : String
  imageData : Option String
  mlAvailableFlag : Bool
  safeModeReason : Option String
  frameId : Nat
  mlLatencyMs : ℚ
  mlFps : ℚ
  completionTimestamp : ℚ
  deriving DecidableEq, Repr

/-- The `system` sub-dictionary of an enhanced payload
(frame_scheduler.py lines 192-197). -/
structure SystemMetrics where
  fps : Nat
  latencyMs : ℚ
  mlFps : ℚ
  mlAvailable : Bool
  deriving DecidableEq, Repr

/-- The enhanced payload rebuilt each scheduler tick
(frame_scheduler.py lines 182-199). -/
structure EnhancedPayload where
  frameId : Nat
  timestamp : ℚ
  detections : List Detection
  maxConfidence : ℚ
  state : String
  imageData : Option String
  system : SystemMetrics
  isCached : Bool
  deriving DecidableEq, Repr

/-- Payload construction of frame_scheduler.py lines 182-199: the
currently ticking frame id and tick time are substituted, the cached
detections, confidence, state and image are reused, `system.ml_available`
is the literal `True` of line 196, and `is_cached` is
`not self.ml_ready.is_set()` (line 198). -/
def buildEnhancedPayload (targetFps : Nat) (frameId : Nat) (currentTime : ℚ)
    (lastMlResult : StoredResult) (mlReadyIsSet : Bool) : EnhancedPayload :=
  { frameId := frameId
    timestamp := currentTime
    detections := lastMlResult.detections
    maxConfidence := lastMlResult.maxConfidence
    state := lastMlResult.state
    imageData := lastMlResult.imageData
    system :=
      { fps := targetFps
        latencyMs := lastMlResult.mlLatencyMs
        mlFps := lastMlResult.mlFps
        mlAvailable := true }
    isCached := !mlReadyIsSet }

end Scheduler

namespace MLService

/-- Mutable state of the HTTP inference client
(ml_service.py lines 24-43). -/
structure ClientState where
  timeout : ℚ
  timeoutNormal : ℚ
  warmedUp : Bool
  frameCount : Nat
  deviceCached : Option String
  mlAvailable : Bool
  lastHealthCheck : ℚ
  healthCheckInterval : ℚ
  consecutiveFailures : Nat
  maxFailuresBeforeSafeMode : Nat
  deriving DecidableEq, Repr

/-- Constructor defaults (ml_service.py lines 24-43):
cold timeout 10 s, warm timeout 0.5 s, not warmed up, unavailable,
health retry every 5 s, safe mode after 2 consecutive failures. -/
def initClient : ClientState :=
  { timeout := 10
    timeoutNormal := 1/2
    warmedUp := false
    frameCount := 0
    deviceCached := none
    mlAvailable := false
    lastHealthCheck := 0
    healthCheckInterval := 5
    consecutiveFailures := 0
    maxFailuresBeforeSafeMode := 2 }

/-- Return value of `MLService.run_inference`: the dictionary contract
normalised at ml_service.py lines 65-74 and 133-155. -/
structure InferResult where
  detections : List Scheduler.Detection
  maxConfidence : ℚ
  state : String
  latencyMs : ℚ
  mlAvailable : Bool
  imageData : Option String
  safeModeReason : Option String
  deriving DecidableEq, Repr

/-- The SAFE MODE placeholder (ml_service.py lines 65-74). -/
def safeModeResponse (reason : String) : InferResult :=
  { detections := []
    maxConfidence := 0
    state := "SAFE_MODE"
    latencyMs := 0
    mlAvailable := false
    imageData := none
    safeModeReason := some reason }

/-- Parsed JSON body of a 200 response from the ml-engine `/infer`
endpoint, with the keys read at ml_service.py lines 129-153. -/
structure EngineResponse where
  status : String
  detections : List Scheduler.Detection
  confidence : ℚ
  threatState : Option String
  inferenceLatencyMs : ℚ
  enhancedImage : Option String
  deviceUsed : Option String
  device : Option String
  deriving DecidableEq, Repr

/-- Outcome of the `requests.post` call at ml_service.py line 112, as
seen by the surrounding try/except:
a 200 response, a non-200 status (raises RuntimeError, caught by the
generic handler at line 171), `requests.exceptions.Timeout` (line 157),
or `requests.exceptions.ConnectionError` (line 165). -/
inductive PostOutcome
  | ok (resp : EngineResponse)
  | badStatus (code : Nat)
  | timedOut
  | connFailed
  deriving DecidableEq, Repr

/-- Outcome of the `requests.get(/health)` call inside `_health`
(ml_service.py lines 45-56). -/
inductive HealthOutcome
  | healthy (device : String)
  | unreachable
  deriving DecidableEq, Repr

/-- `MLService._health` (ml_service.py lines 45-56): on a 200 response
cache the device, set `ml_available`, zero the failure counter and
report success; otherwise leave the state alone and report failure. -/
def health (s : ClientState) : HealthOutcome → ClientState × Bool
  | .healthy device =>
      ({ s with deviceCached := some device, mlAvailable := true,
                consecutiveFailures := 0 }, true)
  | .unreachable => (s, false)

/-- `MLService.probe` (ml_service.py lines 58-63): a health call. -/
def probe (s : ClientState) (hres : HealthOutcome) : ClientState × Bool :=
  health s hres

/-- `MLService.run_inference` (ml_service.py lines 76-177) as a state
transformer.  `now` is the `time.time()` value of the call, `hres` the
outcome the health endpoint would give, `post` the outcome of the
`/infer` POST.  The JPEG encoding of lines 100-110 has no observable
effect on the returned dictionary and is not modelled. -/
def runInference (s : ClientState) (now : ℚ) (hres : HealthOutcome)
    (post : PostOutcome) : ClientState × InferResult :=
  -- lines 86-95: periodic health check when previously unavailable.
  let gate : ClientState ⊕ (ClientState × InferResult) :=
    if s.mlAvailable = false ∧ now - s.lastHealthCheck > s.healthCheckInterval then
      let s1 := { s with lastHealthCheck := now }
      let hs := health s1 hres
      if hs.2 then Sum.inl hs.1
      else Sum.inr (hs.1, safeModeResponse "ML-engine unreachable")
    else Sum.inl s
  match gate with
  | Sum.inr out => out
  | Sum.inl s2 =>
      -- line 97
      let s3 := { s2 with frameCount := s2.frameCount + 1 }
      match post with
      | .ok resp =>
          -- lines 116-126: mark available, reset failures, warm up.
          let s4 := { s3 with mlAvailable := true, consecutiveFailures := 0 }
          let s5 :=
            if s4.warmedUp = false then
              { s4 with warmedUp := true, timeout := s4.timeoutNormal }
            else s4
          -- lines 129-131: dev taken from the device_used key, else the device key
          let s6 :=
            match resp.deviceUsed.orElse (fun _ => resp.device) with
            | some d => { s5 with deviceCached := some d }
            | none => s5
          if resp.status ≠ "success" then
            -- lines 134-141
            (s6, { detections := []
                   maxConfidence := 0
                   state := "SAFE_MODE"
                   latencyMs := resp.inferenceLatencyMs
                   mlAvailable := true
                   imageData := none
                   safeModeReason := none })
          else
            -- lines 143-155
            (s6, { detections := resp.detections
                   maxConfidence := resp.confidence
                   state := resp.threatState.getD "NORMAL"
                   latencyMs := resp.inferenceLatencyMs
                   mlAvailable := true
                   imageData := resp.enhancedImage
                   safeModeReason := none })
      | .timedOut =>
          -- lines 157-163
          let s4 := { s3 with consecutiveFailures := s3.consecutiveFailures + 1 }
          if s4.consecutiveFailures ≥ s4.maxFailuresBeforeSafeMode then
            ({ s4 with mlAvailable := false, lastHealthCheck := now },
             safeModeResponse "Inference timeout")
          else (s4, safeModeResponse "Inference timeout")
      | .connFailed =>
          -- lines 165-169
          ({ s3 with mlAvailable := false, lastHealthCheck := now },
           safeModeResponse "Connection failed")
      | .badStatus code =>
          -- line 114 raises, caught at lines 171-177
          let s4 := { s3 with consecutiveFailures := s3.consecutiveFailures + 1 }
          let reason := "ML engine returned " ++ toString code
          if s4.consecutiveFailures ≥ s4.maxFailuresBeforeSafeMode then
            ({ s4 with mlAvailable := false, lastHealthCheck := now },
             safeModeResponse reason)
          else (s4, safeModeResponse reason)

/-- The ML worker storing a completed result into
`self.last_ml_result` (frame_scheduler.py lines 86-90): a copy of the
client result plus `frame_id`, `ml_latency_ms` (seconds times 1000),
`ml_fps` and `completion_timestamp`. -/
def storeResult (r : InferResult) (frameId : Nat)
    (mlDurationSeconds mlFps completionTs : ℚ) : Scheduler.StoredResult :=
  { detections := r.detections
    maxConfidence := r.maxConfidence
    state := r.state
    imageData := r.imageData
    mlAvailableFlag := r.mlAvailable
    safeModeReason := r.safeModeReason
    frameId := frameId
    mlLatencyMs := mlDurationSeconds * 1000
    mlFps := mlFps
    completionTimestamp := completionTs }

end MLService

namespace SourceManager

/-- Source manager states (source_manager.py lines 26-31). -/
inductive SourceState
  | IDLE
  | VIDEO_ACTIVE
  | CAMERA_WAITING
  | CAMERA_ACTIVE
  | ERROR
  deriving DecidableEq, Repr

/-- Observable state of the `SourceManager` singleton
(source_manager.py lines 56-87), together with the lifecycle counters
of scheduler objects the manager creates:
`schedulerThreadAlive` mirrors `self._scheduler_thread.is_alive()`,
`schedulersCreated` counts the `FrameScheduler(...)` constructions at
line 306 (each `run()` of such an object starts a fresh ML worker
thread, frame_scheduler.py lines 140-142), and `workersStopped` counts
the joins of a live scheduler thread at lines 300-303 (the joined
cleanup of that loop sets `ml_stop` and joins its worker thread,
frame_scheduler.py lines 235-240). -/
structure MgrState where
  state : SourceState
  currentSourceType : Option String
  hasCurrentSource : Bool
  lastFrameTs : Option ℚ
  timeoutActive : Bool
  cameraTimeoutSeconds : ℚ
  schedulerThreadAlive : Bool
  schedulersCreated : Nat
  workersStopped : Nat
  deriving DecidableEq, Repr

/-- Initial manager state (source_manager.py lines 56-87). -/
def initMgr : MgrState :=
  { state := .IDLE
    currentSourceType := none
    hasCurrentSource := false
    lastFrameTs := none
    timeoutActive := false
    cameraTimeoutSeconds := 15
    schedulerThreadAlive := false
    schedulersCreated := 0
    workersStopped := 0 }

/-- Result dictionary of `switch_source` (source_manager.py
lines 118-149 and the attach helpers). -/
structure SwitchResult where
  success : Bool
  stateStr : Option String
  sourceStr : Option String
  errorMsg : Option String
  deriving DecidableEq, Repr

/-- `SourceManager._detach_current_source` (source_manager.py
lines 151-173): stop timeout monitoring, stop and drop the source,
clear the frame timestamp, go IDLE.  The scheduler thread is not
touched here. -/
def detachCurrentSource (m : MgrState) : MgrState :=
  { m with timeoutActive := false
           hasCurrentSource := false
           currentSourceType := none
           lastFrameTs := none
           state := .IDLE }

/-- `SourceManager._start_scheduler` (source_manager.py lines 295-321):
if a scheduler thread is alive, set the shutdown event and join it
(which stops the ML worker of that scheduler, frame_scheduler.py
lines 235-240); then construct a NEW `FrameScheduler` and start a new
thread for it (whose `run()` will start a new ML worker). -/
def startScheduler (m : MgrState) : MgrState :=
  let m1 :=
    if m.schedulerThreadAlive then { m with workersStopped := m.workersStopped + 1 }
    else m
  { m1 with schedulersCreated := m1.schedulersCreated + 1
            schedulerThreadAlive := true }

/-- `SourceManager._attach_video_source` (source_manager.py
lines 175-211).  `videoExists` is the outcome of the `os.path.exists`
checks of lines 183-192. -/
def attachVideoSource (m : MgrState) (videoExists : Bool) : MgrState × SwitchResult :=
  if videoExists = false then
    ({ m with state := .ERROR },
     { success := false, stateStr := some "ERROR", sourceStr := none,
       errorMsg := some "Video file not found" })
  else
    let m1 := { m with hasCurrentSource := true, currentSourceType := some "video" }
    let m2 := startScheduler m1
    ({ m2 with state := .VIDEO_ACTIVE },
     { success := true, stateStr := some "VIDEO_ACTIVE", sourceStr := some "video",
       errorMsg := none })

/-- `SourceManager._attach_camera_source` (source_manager.py
lines 213-238): bind the phone source, reset the frame timestamp to
`now`, go CAMERA_WAITING, start the scheduler, arm the frame-driven
timeout monitor. -/
def attachCameraSource (m : MgrState) (now : ℚ) : MgrState × SwitchResult :=
  let m1 := { m with hasCurrentSource := true, currentSourceType := some "camera",
                     lastFrameTs := some now, state := .CAMERA_WAITING }
  let m2 := startScheduler m1
  let m3 := { m2 with timeoutActive := true }
  (m3, { success := true, stateStr := some "CAMERA_WAITING", sourceStr := some "camera",
         errorMsg := none })

/-- `SourceManager.switch_source` (source_manager.py lines 118-149):
validate the type, detach the current source, reset `last_frame_ts`,
attach the requested source. -/
def switchSource (m : MgrState) (sourceType : String) (now : ℚ)
    (videoExists : Bool) : MgrState × SwitchResult :=
  if sourceType ≠ "video" ∧ sourceType ≠ "camera" then
    (m, { success := false, stateStr := none, sourceStr := none,
          errorMsg := some "Invalid source type" })
  else
    let m1 := detachCurrentSource m
    let m2 := { m1 with lastFrameTs := none }
    if sourceType = "video" then attachVideoSource m2 videoExists
    else attachCameraSource m2 now

/-- What one iteration of the watchdog loop does next. -/
inductive MonitorStep
  | continues
  | stopped
  deriving DecidableEq, Repr

/-- One iteration of
`SourceManager._monitor_camera_timeout_frame_driven` (source_manager.py
lines 249-268), taken after the 2 s sleep with `now` the `time.time()`
of the check.  The loop exits when `_timeout_active` is cleared; a
CAMERA_ACTIVE state hits the `continue` at line 257 before any stall
check; a state outside the camera pair returns at line 259; in
CAMERA_WAITING the frame-driven timeout of lines 262-268 detaches when
more than `cameraTimeoutSeconds` passed since `last_frame_ts`. -/
def monitorPoll (m : MgrState) (now : ℚ) : MgrState × MonitorStep :=
  if m.timeoutActive = false then (m, .stopped)
  else if m.state = .CAMERA_ACTIVE then (m, .continues)
  else if m.state ≠ .CAMERA_WAITING then (m, .stopped)
  else
    match m.lastFrameTs with
    | some ts =>
        if now - ts > m.cameraTimeoutSeconds then
          (detachCurrentSource { m with timeoutActive := false }, .stopped)
        else (m, .continues)
    | none => (m, .continues)

/-- `SourceManager.on_frame_received` (source_manager.py lines 272-283):
stamp `last_frame_ts := now` and promote CAMERA_WAITING to
CAMERA_ACTIVE on the first frame. -/
def onFrameReceived (m : MgrState) (now : ℚ) : MgrState :=
  let m1 := { m with lastFrameTs := some now }
  if m1.state = .CAMERA_WAITING then { m1 with state := .CAMERA_ACTIVE } else m1

/-- `SourceManager.notify_camera_disconnected` (source_manager.py
lines 285-289): stop the timeout monitor and detach. -/
def notifyCameraDisconnected (m : MgrState) : MgrState :=
  detachCurrentSource { m with timeoutActive := false }

/-- Modelled from the spec: the disconnect cleanup of the phone upload
endpoint reaches the manager through `phone_camera_source.stop()`
(phone_upload.py lines 113-121), and the file
`backend/app/video/phone_source.py` that implements it is not part of
the source tree here.  Spec section 4.2 states the missing behaviour:
"Disconnect notifies the Source Manager (notify_camera_disconnected),
which transitions to IDLE without auto-fallback". -/
def phoneDisconnect (m : MgrState) : MgrState :=
  notifyCameraDisconnected m

end SourceManager

namespace Viewer

/-- Registry entry for one connected viewer
(viewer_manager.py lines 21-26); the websocket handle is identified by
the viewer id it is keyed under. -/
structure ViewerEntry where
  viewerId : String
  label : String
  connectedAt : ℚ
  deriving DecidableEq, Repr

/-- State of the `ViewerManager` singleton (viewer_manager.py
lines 49-61): the `viewer_id -> ViewerInfo` dictionary and the set of
allowed viewer ids.  `autoAllowNew` is `self._auto_allow_new`. -/
structure Registry where
  viewers : List (String × ViewerEntry)
  allowedViewers : List String
  autoAllowNew : Bool
  deriving DecidableEq, Repr

/-- The viewer ids present in the registry dictionary. -/
def registeredIds (r : Registry) : List String :=
  r.viewers.map Prod.fst

/-- Set insertion for the allowed-viewers set (`set.add`). -/
def allowedInsert (l : List String) (v : String) : List String :=
  if v ∈ l then l else v :: l

/-- Set removal for the allowed-viewers set (`set.discard`). -/
def allowedDiscard (l : List String) (v : String) : List String :=
  l.filter (fun w => w ≠ v)

/-- `ViewerManager.register_viewer` (viewer_manager.py lines 63-92):
dictionary assignment keyed by the viewer id, then auto-allow when
configured. -/
def registerViewer (r : Registry) (v label : String) (now : ℚ) : Registry :=
  let entry : ViewerEntry := { viewerId := v, label := label, connectedAt := now }
  let r1 := { r with viewers := (v, entry) :: r.viewers.filter (fun p => p.1 ≠ v) }
  if r1.autoAllowNew then { r1 with allowedViewers := allowedInsert r1.allowedViewers v }
  else r1

/-- `ViewerManager.unregister_viewer` (viewer_manager.py lines 94-100):
delete from the dictionary, discard from the allowed set. -/
def unregisterViewer (r : Registry) (v : String) : Registry :=
  { r with viewers := r.viewers.filter (fun p => p.1 ≠ v)
           allowedViewers := allowedDiscard r.allowedViewers v }

/-- `ViewerManager.is_allowed` (viewer_manager.py lines 102-105):
membership of the id in the allowed set. -/
def isAllowed (r : Registry) (v : String) : Bool :=
  decide (v ∈ r.allowedViewers)

/-- `ViewerManager.allow_viewer` (viewer_manager.py lines 107-114):
adds to the allowed set and returns True only when the id is a key of
the viewers dictionary; otherwise returns False. -/
def allowViewer (r : Registry) (v : String) : Registry × Bool :=
  if v ∈ registeredIds r then
    ({ r with allowedViewers := allowedInsert r.allowedViewers v }, true)
  else (r, false)

/-- `ViewerManager.revoke_viewer` (viewer_manager.py lines 116-121):
discards from the allowed set and returns True unconditionally. -/
def revokeViewer (r : Registry) (v : String) : Registry × Bool :=
  ({ r with allowedViewers := allowedDiscard r.allowedViewers v }, true)

/-- Response body of the viewer action endpoints
(viewer_api.py lines 41-44). -/
structure ViewerActionResponse where
  success : Bool
  viewerId : String
  message : String
  deriving DecidableEq, Repr

/-- `POST /api/viewers/allow` (viewer_api.py lines 61-69). -/
def apiAllowViewer (r : Registry) (v : String) : Registry × ViewerActionResponse :=
  let res := allowViewer r v
  (res.1, { success := res.2, viewerId := v,
            message := if res.2 then "Viewer allowed" else "Viewer not found" })

/-- `POST /api/viewers/revoke` (viewer_api.py lines 72-85). -/
def apiRevokeViewer (r : Registry) (v : String) : Registry × ViewerActionResponse :=
  let res := revokeViewer r v
  (res.1, { success := res.2, viewerId := v,
            message := if res.2 then "Viewer blocked" else "Error" })

/-- A message handed to `broadcast` (ws_server.py line 87): every
payload the scheduler callbacks produce carries a `type` key
("data", "RAW_FRAME", "system", ...); the body is opaque here. -/
structure Message where
  msgType : String
  body : String
  deriving DecidableEq, Repr

/-- Outcome of one `connection.send_json` wrapped in
`asyncio.wait_for(..., timeout=0.1)` (ws_server.py lines 118-138). -/
inductive SendResult
  | sent
  | timedOut
  | ioError
  deriving DecidableEq, Repr

/-- The loop body of `broadcast._send` (ws_server.py lines 108-138)
over the snapshot `list(active_connections.items())`: skip viewers the
registry does not allow, deliver to allowed viewers whose send
completes, silently drop on a send timeout, and on any other send
error pop the connection and unregister the viewer.  Returns the
deliveries made, the surviving connection list and the updated
registry. -/
def broadcastLoop (snapshot : List String) (conns : List String)
    (reg : Registry) (msg : Message) (outcome : String → SendResult) :
    List (String × Message) × List String × Registry :=
  match snapshot with
  | [] => ([], conns, reg)
  | v :: rest =>
      if isAllowed reg v = false then
        broadcastLoop rest conns reg msg outcome
      else
        match outcome v with
        | .sent =>
            let r := broadcastLoop rest conns reg msg outcome
            ((v, msg) :: r.1, r.2)
        | .timedOut => broadcastLoop rest conns reg msg outcome
        | .ioError =>
            broadcastLoop rest (conns.filter (fun w => w ≠ v))
              (unregisterViewer reg v) msg outcome

/-- `broadcast` (ws_server.py lines 87-140): iterate the send loop over
a snapshot of the current connections. -/
def broadcast (conns : List String) (reg : Registry) (msg : Message)
    (outcome : String → SendResult) :
    List (String × Message) × List String × Registry :=
  broadcastLoop conns conns reg msg outcome

end Viewer

namespace Pacing

/-- `self.frame_interval = 1.0 / target_fps`
(frame_scheduler.py line 26). -/
def frameInterval (targetFps : Nat) : ℚ :=
  1 / (targetFps : ℚ)

/-- The sleep computation of the scheduler tick (frame_scheduler.py
lines 213-215): `current_time` is the `time.time()` read at line 156,
taken at the start of the tick BEFORE the raw emission, the ML
submission and the enhanced emission; `last_frame_time` is the
`time.time()` read right after the previous sleep (line 220).
So the subtrahend is the gap between the end of the sleep of the
previous tick and the start of this tick (essentially the source-read
time),
not the work this tick performs after line 156. -/
def sleepDuration (fi currentTime lastFrameTime : ℚ) : ℚ :=
  fi - (currentTime - lastFrameTime)

/-- The amount actually slept (frame_scheduler.py lines 217-218):
`time.sleep(sleep_duration)` only when the duration is positive. -/
def sleepAmount (fi currentTime lastFrameTime : ℚ) : ℚ :=
  max (sleepDuration fi currentTime lastFrameTime) 0

/-- The sleep of a whole tick as a function of the tick-start clock
reading, the previous tick-end clock reading and the elapsed work
`workElapsed` this tick performed between line 156 and line 215.
The code reads the clock only at line 156, so `workElapsed` cannot
enter the computation. -/
def tickSleep (fi tickStart lastFrameTime _workElapsed : ℚ) : ℚ :=
  sleepAmount fi tickStart lastFrameTime

/-- Modelled from the spec, for comparison with `tickSleep` (spec
section 4.5 step 6): "compute sleep = frame_interval − (monotonic() −
now); if positive, sleep", where `now` is marked before the emissions
of the tick, so the subtrahend is the elapsed work of the tick itself. -/
def specTickSleep (fi workElapsed : ℚ) : ℚ :=
  max (fi - workElapsed) 0

end Pacing

namespace Scheduler

theorem stepAct_submit_eq (s : WorkerState) (f : Nat) :
    stepAct s (.submit f) = some { s with latestFrame := some f, mlReady := false } := by
  rcases s with ⟨mr, lf, ph, infl, lr⟩
  cases mr <;> simp [stepAct]

theorem inflight_inv_step {s s1 : WorkerState} {a : SchedAct}
    (h : stepAct s a = some s1) (hs : s.inflight = phaseLoad s.phase) :
    s1.inflight = phaseLoad s1.phase := by
  cases a with
  | submit f =>
      rw [stepAct_submit_eq] at h
      cases h
      simpa using hs
  | take =>
      rcases hp : s.phase with _ | g <;> rcases hl : s.latestFrame with _ | x <;>
        simp [stepAct, hp, hl] at h
      cases h
      simp [phaseLoad, hs, hp]
  | takeSkip =>
      rcases hp : s.phase with _ | g <;> rcases hl : s.latestFrame with _ | x <;>
        simp [stepAct, hp, hl] at h
      cases h
      exact hs
  | complete =>
      rcases hp : s.phase with _ | g <;> simp [stepAct, hp] at h
      cases h
      simp [phaseLoad, hs, hp]

theorem inflight_inv_run (acts : List SchedAct) :
    ∀ s0 s : WorkerState, runActs s0 acts = some s →
      s0.inflight = phaseLoad s0.phase → s.inflight = phaseLoad s.phase := by
  induction acts with
  | nil =>
      intro s0 s h h0
      simp [runActs] at h
      exact h ▸ h0
  | cons a rest ih =>
      intro s0 s h h0
      rcases hstep : stepAct s0 a with _ | s1
      · simp [runActs, hstep] at h
      · simp only [runActs, hstep] at h
        exact ih s1 s h (inflight_inv_step hstep h0)

theorem latestFrame_run (acts : List SchedAct) :
    ∀ s0 s : WorkerState, runActs s0 acts = some s →
      s.latestFrame = lastSubAcc s0.latestFrame acts := by
  induction acts with
  | nil =>
      intro s0 s h
      simp [runActs] at h
      simp [lastSubAcc, h]
  | cons a rest ih =>
      intro s0 s h
      rcases hstep : stepAct s0 a with _ | s1
      · simp [runActs, hstep] at h
      · simp only [runActs, hstep] at h
        have h1 := ih s1 s h
        cases a with
        | submit f =>
            rw [stepAct_submit_eq] at hstep
            cases hstep
            simpa [lastSubAcc] using h1
        | take =>
            rcases hp : s0.phase with _ | g <;> rcases hl : s0.latestFrame with _ | x <;>
              simp [stepAct, hp, hl] at hstep
            cases hstep
            simpa [lastSubAcc] using h1
        | takeSkip =>
            rcases hp : s0.phase with _ | g <;> rcases hl : s0.latestFrame with _ | x <;>
              simp [stepAct, hp, hl] at hstep
            cases hstep
            simpa [lastSubAcc, hl] using h1
        | complete =>
            rcases hp : s0.phase with _ | g <;> simp [stepAct, hp] at hstep
            cases hstep
            simpa [lastSubAcc] using h1

theorem runActs_append (l1 l2 : List SchedAct) :
    ∀ s0 : WorkerState, runActs s0 (l1 ++ l2) =
      match runActs s0 l1 with
      | some s1 => runActs s1 l2
      | none => none := by
  induction l1 with
  | nil => intro s0; simp [runActs]
  | cons a rest ih =>
      intro s0
      rcases hstep : stepAct s0 a with _ | s1 <;>
        simp [runActs, hstep, ih]

/-- The state reached by the interleaving: submit frame 1, worker takes
it and starts inference, scheduler overwrites the slot with frame 2
while the worker is busy, inference 1 returns (setting `ml_ready`), the
worker immediately takes frame 2 from the slot and starts the next
inference while `ml_ready` is still set. -/
def c1State : WorkerState :=
  { mlReady := true
    latestFrame := none
    phase := .busy 2
    inflight := 1
    lastResultId := some 1 }

/-- C1 counterexample: the claim says the worker clears admission
(`ml_ready`) before calling `run_inference` and re-opens it only after
the call returns, which would make `ml_ready` clear whenever a call is
in flight.  The state `c1State` is reachable and has an inference call
in flight (`phase = busy 2`) with `ml_ready` set: nobody cleared
admission before this call, because the scheduler (not the worker) is
the one that clears `ml_ready`, and only on the submit path. -/
theorem c1_ready_during_inference_cex :
    runActs initState
        [.submit 1, .take, .submit 2, .complete, .take] = some c1State ∧
    c1State.phase = .busy 2 ∧ c1State.mlReady = true := by
  decide

/-- C1 (amended): at most one inference request is outstanding at any
time, in every reachable interleaving of scheduler submissions and
worker steps, because the single worker thread runs `run_inference`
synchronously, processing exactly one frame taken from the single-slot
`latest_frame` buffer per iteration; the completion step always re-sets
`ml_ready`.  Admission is cleared by the scheduler on submit (not by
the worker), and a call may begin while `ml_ready` is set. -/
theorem c1_single_inflight (s : WorkerState) (h : Reachable s) :
    s.inflight ≤ 1 ∧
    ((stepAct s SchedAct.complete).map WorkerState.mlReady).getD true = true := by
  constructor
  · obtain ⟨acts, hr⟩ := h
    have hinv := inflight_inv_run acts initState s hr rfl
    rw [hinv]
    cases s.phase <;> simp [phaseLoad]
  · rcases hp : s.phase with _ | g <;> simp [stepAct, hp]

theorem c1_single_inflight_witness :
    c1State.inflight ≤ 1 ∧
    ((stepAct c1State SchedAct.complete).map WorkerState.mlReady).getD true = true :=
  c1_single_inflight c1State
    ⟨[.submit 1, .take, .submit 2, .complete, .take], by decide⟩

/-- C2: whenever the worker takes work (after any interleaving, in
particular after N ≥ 1 frames were submitted during a busy period), the
frame it takes is exactly the most recent submission since the previous
take (`lastSubAcc` computes that frame from the trace), the slot is
left empty (set to None), and every submission succeeds by overwriting
the single `latest_frame` slot, never raising an error. -/
theorem c2_latest_wins (acts : List SchedAct) (s st : WorkerState) (f g : Nat)
    (hrun : runActs initState (acts ++ [SchedAct.take]) = some s)
    (hbusy : s.phase = .busy f) :
    lastSubAcc none acts = some f ∧ s.latestFrame = none ∧
    stepAct st (.submit g) = some { st with latestFrame := some g, mlReady := false } := by
  have happ := runActs_append acts [SchedAct.take] initState
  rw [hrun] at happ
  rcases hmid : runActs initState acts with _ | s1
  · rw [hmid] at happ; exact absurd happ.symm (by simp)
  · rw [hmid] at happ
    have hslot := latestFrame_run acts initState s1 hmid
    rcases hp : s1.phase with _ | q <;> rcases hl : s1.latestFrame with _ | x <;>
      simp [runActs, stepAct, hp, hl] at happ
    have hs : s = { s1 with latestFrame := none, phase := .busy x,
                            inflight := s1.inflight + 1 } := happ
    have hslot1 : s1.latestFrame = lastSubAcc none acts := hslot
    have hfx : x = f := by
      rw [hs] at hbusy
      simpa using hbusy
    refine ⟨?_, ?_, stepAct_submit_eq st g⟩
    · rw [← hslot1, hl, hfx]
    · rw [hs]

theorem c2_latest_wins_witness :
    lastSubAcc none [.submit 5, .submit 7] = some 7 ∧
    ({ mlReady := false, latestFrame := none, phase := .busy 7,
       inflight := 1, lastResultId := none } : WorkerState).latestFrame = none ∧
    stepAct initState (.submit 3) =
      some { initState with latestFrame := some 3, mlReady := false } :=
  c2_latest_wins [.submit 5, .submit 7]
    { mlReady := false, latestFrame := none, phase := .busy 7,
      inflight := 1, lastResultId := none }
    initState 7 3 (by decide) (by decide)

/-- The state reached by: submit frame 1, worker takes and completes
it (so a cached result exists), the scheduler submits frame 2 and
clears `ml_ready`; the worker has not taken frame 2 yet, so it is not
busy. -/
def c6State : WorkerState :=
  { mlReady := false
    latestFrame := some 2
    phase := .idle
    inflight := 0
    lastResultId := some 1 }

/-- A concrete cached result dictionary for the emission. -/
def c6Stored : StoredResult :=
  { detections := []
    maxConfidence := 0
    state := "NORMAL"
    imageData := none
    mlAvailableFlag := true
    safeModeReason := none
    frameId := 1
    mlLatencyMs := 0
    mlFps := 0
    completionTimestamp := 0 }

/-- C6 counterexample: the claim says `is_cached` is true exactly when
the worker is busy at emission time.  In the reachable state `c6State`
the worker is idle (it has not begun any inference), yet an emission
built there carries `is_cached = true`, because the code computes
`is_cached = not ml_ready.is_set()` and the scheduler itself cleared
`ml_ready` on the submit earlier in the same tick. -/
theorem c6_is_cached_without_busy_cex :
    runActs initState [.submit 1, .take, .complete, .submit 2] = some c6State ∧
    c6State.phase = .idle ∧
    (buildEnhancedPayload 12 2 0 c6Stored c6State.mlReady).isCached = true := by
  decide

/-- C6 (amended): every enhanced emission built from the cached last
result carries the currently ticking frame id (not the frame id of the
cached result) and the current tick time, so emission frame ids increase whenever
the ticking ids do; `is_cached` is true exactly when `ml_ready` is
clear (admission closed) at emission time, which does not always
coincide with the worker actually being busy. -/
theorem c6_payload_substitution (targetFps frameId frameId2 : Nat) (t t2 : ℚ)
    (r r2 : StoredResult) (ready ready2 : Bool) (hlt : frameId < frameId2) :
    (buildEnhancedPayload targetFps frameId t r ready).frameId = frameId ∧
    (buildEnhancedPayload targetFps frameId t r ready).timestamp = t ∧
    (buildEnhancedPayload targetFps frameId t r ready).isCached = !ready ∧
    (buildEnhancedPayload targetFps frameId t r ready).frameId <
      (buildEnhancedPayload targetFps frameId2 t2 r2 ready2).frameId := by
  exact ⟨rfl, rfl, rfl, hlt⟩

theorem c6_payload_substitution_witness :
    (buildEnhancedPayload 12 3 1 c6Stored true).frameId = 3 ∧
    (buildEnhancedPayload 12 3 1 c6Stored true).timestamp = 1 ∧
    (buildEnhancedPayload 12 3 1 c6Stored true).isCached = !true ∧
    (buildEnhancedPayload 12 3 1 c6Stored true).frameId <
      (buildEnhancedPayload 12 4 2 c6Stored false).frameId :=
  c6_payload_substitution 12 3 4 1 2 c6Stored c6Stored true false (by decide)

end Scheduler

namespace MLService

/-- Two consecutive `run_inference` calls that both hit the request
timeout. -/
def afterTwoTimeouts (s : ClientState) (now1 now2 : ℚ)
    (hr1 hr2 : HealthOutcome) : ClientState × InferResult :=
  runInference (runInference s now1 hr1 .timedOut).1 now2 hr2 .timedOut

/-- A successful probe followed by a successful inference call. -/
def probeThenInfer (s : ClientState) (dev : String) (now : ℚ)
    (hr : HealthOutcome) (resp : EngineResponse) : ClientState × InferResult :=
  runInference (probe s (.healthy dev)).1 now hr (.ok resp)

/-- A warmed-up, available client as left behind by a successful
startup probe. -/
def c3Start : ClientState :=
  { initClient with mlAvailable := true }

def c3After : ClientState × InferResult :=
  afterTwoTimeouts c3Start 0 1 .unreachable .unreachable

def c3Payload : Scheduler.EnhancedPayload :=
  Scheduler.buildEnhancedPayload 12 9 2 (storeResult c3After.2 9 0 0 2) false

/-- C3 counterexample: after two consecutive inference timeouts the
client is indeed marked unavailable and the stored result has state
SAFE_MODE, but the enhanced emission the scheduler builds from it
carries `system.ml_available = true` (the literal `True` of
frame_scheduler.py line 196), not the `false` the claim requires. -/
theorem c3_ml_available_hardcoded_cex :
    c3After.1.mlAvailable = false ∧
    c3After.2.state = "SAFE_MODE" ∧
    c3Payload.state = "SAFE_MODE" ∧
    c3Payload.system.mlAvailable = true := by
  decide

/-- C3 (amended): from any available client state with a clean failure
counter and the default threshold of 2, two consecutive inference
timeouts mark the client unavailable and give a SAFE_MODE result, so
every enhanced emission built from it carries `state = "SAFE_MODE"` —
but `system.ml_available` stays the hardcoded `true`.  After a
successful probe and a successful inference the client is available
again and emissions built from the new result carry
`state = "NORMAL"` and `system.ml_available = true`. -/
theorem c3_safe_mode_round_trip (s : ClientState) (now1 now2 now3 : ℚ)
    (hr1 hr2 hr3 : HealthOutcome) (dev : String) (resp : EngineResponse)
    (tf fid : Nat) (t dur fps ts : ℚ) (ready : Bool)
    (hav : s.mlAvailable = true) (hcf : s.consecutiveFailures = 0)
    (hmax : s.maxFailuresBeforeSafeMode = 2)
    (hst : resp.status = "success") (hth : resp.threatState = some "NORMAL") :
    (afterTwoTimeouts s now1 now2 hr1 hr2).1.mlAvailable = false ∧
    (afterTwoTimeouts s now1 now2 hr1 hr2).2.state = "SAFE_MODE" ∧
    (Scheduler.buildEnhancedPayload tf fid t
      (storeResult (afterTwoTimeouts s now1 now2 hr1 hr2).2 fid dur fps ts)
      ready).state = "SAFE_MODE" ∧
    (Scheduler.buildEnhancedPayload tf fid t
      (storeResult (afterTwoTimeouts s now1 now2 hr1 hr2).2 fid dur fps ts)
      ready).system.mlAvailable = true ∧
    (probe (afterTwoTimeouts s now1 now2 hr1 hr2).1 (.healthy dev)).1.mlAvailable = true ∧
    (probeThenInfer (afterTwoTimeouts s now1 now2 hr1 hr2).1 dev now3 hr3 resp).2.state
      = "NORMAL" ∧
    (Scheduler.buildEnhancedPayload tf fid t
      (storeResult
        (probeThenInfer (afterTwoTimeouts s now1 now2 hr1 hr2).1 dev now3 hr3 resp).2
        fid dur fps ts) ready).state = "NORMAL" ∧
    (Scheduler.buildEnhancedPayload tf fid t
      (storeResult
        (probeThenInfer (afterTwoTimeouts s now1 now2 hr1 hr2).1 dev now3 hr3 resp).2
        fid dur fps ts) ready).system.mlAvailable = true := by
  simp [afterTwoTimeouts, probeThenInfer, runInference, probe, health,
        storeResult, Scheduler.buildEnhancedPayload, safeModeResponse,
        hav, hcf, hmax, hst, hth]

def c3Resp : EngineResponse :=
  { status := "success"
    detections := []
    confidence := 0
    threatState := some "NORMAL"
    inferenceLatencyMs := 20
    enhancedImage := none
    deviceUsed := some "cuda"
    device := none }

theorem c3_safe_mode_round_trip_witness :
    (afterTwoTimeouts c3Start 0 1 .unreachable .unreachable).1.mlAvailable = false ∧
    (afterTwoTimeouts c3Start 0 1 .unreachable .unreachable).2.state = "SAFE_MODE" ∧
    (Scheduler.buildEnhancedPayload 12 9 2
      (storeResult (afterTwoTimeouts c3Start 0 1 .unreachable .unreachable).2 9 0 0 2)
      false).state = "SAFE_MODE" ∧
    (Scheduler.buildEnhancedPayload 12 9 2
      (storeResult (afterTwoTimeouts c3Start 0 1 .unreachable .unreachable).2 9 0 0 2)
      false).system.mlAvailable = true ∧
    (probe (afterTwoTimeouts c3Start 0 1 .unreachable .unreachable).1
      (.healthy "cuda")).1.mlAvailable = true ∧
    (probeThenInfer (afterTwoTimeouts c3Start 0 1 .unreachable .unreachable).1
      "cuda" 6 .unreachable c3Resp).2.state = "NORMAL" ∧
    (Scheduler.buildEnhancedPayload 12 9 2
      (storeResult
        (probeThenInfer (afterTwoTimeouts c3Start 0 1 .unreachable .unreachable).1
          "cuda" 6 .unreachable c3Resp).2 9 0 0 2) false).state = "NORMAL" ∧
    (Scheduler.buildEnhancedPayload 12 9 2
      (storeResult
        (probeThenInfer (afterTwoTimeouts c3Start 0 1 .unreachable .unreachable).1
          "cuda" 6 .unreachable c3Resp).2 9 0 0 2) false).system.mlAvailable = true :=
  c3_safe_mode_round_trip c3Start 0 1 6 .unreachable .unreachable .unreachable
    "cuda" c3Resp 12 9 2 0 0 2 false rfl rfl rfl rfl rfl

end MLService

namespace SourceManager

/-- Manager state after a video -> camera switch sequence starting
from boot. -/
def c4AfterTwoSwitches : MgrState :=
  (switchSource (switchSource initMgr "video" 0 true).1 "camera" 5 true).1

/-- C4 (evaluation at the failing input): after `switch_source("video")`
followed by `switch_source("camera")`, two distinct `FrameScheduler`
objects have been constructed and the first scheduler thread was
joined, which stops its ML worker thread; the second `run()` starts a
fresh worker.  The claim (and the class docstring "Scheduler and ML
worker are NEVER destroyed on switch!") says the worker thread is
neither stopped nor recreated, but `_start_scheduler` does both on
every switch. -/
theorem c4_worker_recreated_on_switch :
    (switchSource initMgr "video" 0 true).1.schedulersCreated = 1 ∧
    (switchSource initMgr "video" 0 true).1.workersStopped = 0 ∧
    c4AfterTwoSwitches.schedulersCreated = 2 ∧
    c4AfterTwoSwitches.workersStopped = 1 := by
  decide

/-- Manager state in CAMERA_ACTIVE whose last frame arrived at time 0:
attach the camera at time 0, then receive one frame at time 0. -/
def c5Stalled : MgrState :=
  onFrameReceived (switchSource initMgr "camera" 0 true).1 0

/-- C5 (evaluation at the failing input): with the camera ACTIVE and no
frame for 20 s (well past the 15 s window), the watchdog iteration hits
the `continue` of source_manager.py line 257 before any stall check, so
the state stays CAMERA_ACTIVE and no detach happens — the claim (and
the comment "keep monitoring for stalls" plus the spec transition
CAMERA_ACTIVE -> IDLE on watchdog fire) requires a transition to IDLE. -/
theorem c5_active_stall_not_detached :
    c5Stalled.state = SourceState.CAMERA_ACTIVE ∧
    c5Stalled.lastFrameTs = some 0 ∧
    c5Stalled.timeoutActive = true ∧
    ((20 : ℚ) - 0 > c5Stalled.cameraTimeoutSeconds) ∧
    (monitorPoll c5Stalled 20).1 = c5Stalled ∧
    (monitorPoll c5Stalled 20).2 = MonitorStep.continues := by
  refine ⟨by decide, by decide, by decide, ?_, by decide, by decide⟩
  have h15 : c5Stalled.cameraTimeoutSeconds = 15 := rfl
  rw [h15]
  norm_num

/-- C8: a phone-channel disconnect reaches
`notify_camera_disconnected`, which stops the timeout monitor,
detaches the current source and leaves the manager IDLE with no source
bound — no fallback source is attached (the scheduler-creation counter
is untouched).  Holds from every manager state. -/
theorem c8_phone_disconnect_to_idle (m : MgrState) :
    (phoneDisconnect m).state = SourceState.IDLE ∧
    (phoneDisconnect m).timeoutActive = false ∧
    (phoneDisconnect m).currentSourceType = none ∧
    (phoneDisconnect m).hasCurrentSource = false ∧
    (phoneDisconnect m).lastFrameTs = none ∧
    (phoneDisconnect m).schedulersCreated = m.schedulersCreated := by
  simp [phoneDisconnect, notifyCameraDisconnected, detachCurrentSource]

end SourceManager

namespace Pacing

/-- C7 counterexample: a tick that starts exactly one interval after
the previous tick ended (tickStart = lastFrameTime = 0) and then
performs 1/24 s of work before reaching the sleep computation.  The
code sleeps the full interval 1/12 s, because `current_time` was read
at line 156 before the work; the formula of the claim
(frame_interval − elapsed work of the tick) gives 1/24 s.  The two
disagree, so the sleep is not computed as the claim states. -/
theorem c7_sleep_formula_cex :
    tickSleep (frameInterval 12) 0 0 (1/24) = 1/12 ∧
    specTickSleep (frameInterval 12) (1/24) = 1/24 ∧
    ¬ (tickSleep (frameInterval 12) 0 0 (1/24) =
       specTickSleep (frameInterval 12) (1/24)) := by
  refine ⟨?_, ?_, ?_⟩ <;> norm_num [tickSleep, sleepAmount, sleepDuration,
    specTickSleep, frameInterval]

/-- C7 (amended): the sleep the scheduler performs at the end of a tick
ignores the work the tick did after reading `current_time` (line 156),
depends only on the difference between the tick-start clock reading and
the clock reading after the previous sleep — so no cumulative drift
against a fixed epoch is possible — is never negative, and is either
the computed `sleep_duration` or zero (the code sleeps only when the
duration is positive).  Note the clock is `time.time()` (the wall
clock), not a monotonic clock. -/
theorem c7_pace_no_work_compensation (fi t l c w w1 : ℚ) :
    tickSleep fi t l w = tickSleep fi t l w1 ∧
    tickSleep fi (t + c) (l + c) w = tickSleep fi t l w ∧
    0 ≤ tickSleep fi t l w ∧
    (tickSleep fi t l w = sleepDuration fi t l ∨ tickSleep fi t l w = 0) := by
  refine ⟨rfl, ?_, le_max_right _ _, ?_⟩
  · show max (sleepDuration fi (t + c) (l + c)) 0 = max (sleepDuration fi t l) 0
    have harg : sleepDuration fi (t + c) (l + c) = sleepDuration fi t l := by
      unfold sleepDuration
      ring
    rw [harg]
  · rcases le_total (sleepDuration fi t l) 0 with h | h
    · exact Or.inr (max_eq_right h)
    · exact Or.inl (max_eq_left h)

end Pacing

namespace Viewer

theorem isAllowed_false_iff (r : Registry) (v : String) :
    isAllowed r v = false ↔ v ∉ r.allowedViewers := by
  simp [isAllowed]

theorem isAllowed_unregister_false {reg : Registry} {v : String} (w : String)
    (h : isAllowed reg v = false) : isAllowed (unregisterViewer reg w) v = false := by
  rw [isAllowed_false_iff] at h ⊢
  intro hmem
  exact h (List.mem_of_mem_filter hmem)

theorem mem_registeredIds_unregister {reg : Registry} {v w : String}
    (hvw : v ≠ w) (h : v ∈ registeredIds reg) :
    v ∈ registeredIds (unregisterViewer reg w) := by
  simp only [registeredIds, unregisterViewer, List.mem_map] at h ⊢
  obtain ⟨p, hp, he⟩ := h
  refine ⟨p, List.mem_filter.mpr ⟨hp, ?_⟩, he⟩
  simp [he, hvw]

theorem broadcastLoop_blocked (v : String) (msg : Message)
    (outcome : String → SendResult) :
    ∀ (snapshot conns : List String) (reg : Registry),
      isAllowed reg v = false →
      (broadcastLoop snapshot conns reg msg outcome).1.filter
          (fun p => p.1 = v) = [] ∧
      (v ∈ conns → v ∈ (broadcastLoop snapshot conns reg msg outcome).2.1) ∧
      (v ∈ registeredIds reg →
        v ∈ registeredIds (broadcastLoop snapshot conns reg msg outcome).2.2) := by
  intro snapshot
  induction snapshot with
  | nil =>
      intro conns reg h
      simp [broadcastLoop]
  | cons w rest ih =>
      intro conns reg h
      by_cases hw : isAllowed reg w = false
      · simpa [broadcastLoop, hw] using ih conns reg h
      · have hwv : w ≠ v := by
          intro he
          exact hw (he ▸ h)
        rcases ho : outcome w with _ | _ | _
        · have hrec := ih conns reg h
          simp only [broadcastLoop, hw, ho, if_false]
          refine ⟨?_, hrec.2.1, hrec.2.2⟩
          simpa [List.filter, hwv] using hrec.1
        · have hrec := ih conns reg h
          simpa [broadcastLoop, hw, ho] using hrec
        · have hrec := ih (conns.filter (fun x => x ≠ w))
            (unregisterViewer reg w) (isAllowed_unregister_false w h)
          simp only [broadcastLoop, hw, ho, if_false]
          refine ⟨hrec.1, ?_, ?_⟩
          · intro hv
            exact hrec.2.1 (List.mem_filter.mpr ⟨hv, by simp [hwv.symm]⟩)
          · intro hv
            exact hrec.2.2 (mem_registeredIds_unregister hwv.symm hv)

/-- C9: a registered, connected viewer whose allowed bit is false
receives zero messages from a broadcast (whatever the message type —
"data" and "RAW_FRAME" alike pass through the same loop), stays in the
connection table (its stream is not closed by the broadcast) and stays
in the registry. -/
theorem c9_blocked_viewer_zero_messages (conns : List String) (reg : Registry)
    (msg : Message) (outcome : String → SendResult) (v : String)
    (hblocked : isAllowed reg v = false) (hconn : v ∈ conns)
    (hreg : v ∈ registeredIds reg) :
    (broadcast conns reg msg outcome).1.filter (fun p => p.1 = v) = [] ∧
    v ∈ (broadcast conns reg msg outcome).2.1 ∧
    v ∈ registeredIds (broadcast conns reg msg outcome).2.2 := by
  have h := broadcastLoop_blocked v msg outcome conns conns reg hblocked
  exact ⟨h.1, h.2.1 hconn, h.2.2 hreg⟩

/-- A concrete two-viewer registry in which only viewer a is allowed. -/
def c9Reg : Registry :=
  { viewers :=
      [("a", { viewerId := "a", label := "A", connectedAt := 0 }),
       ("b", { viewerId := "b", label := "B", connectedAt := 0 })]
    allowedViewers := ["a"]
    autoAllowNew := true }

def c9DataMsg : Message :=
  { msgType := "data", body := "payload" }

def c9RawMsg : Message :=
  { msgType := "RAW_FRAME", body := "jpeg" }

theorem c9_blocked_viewer_zero_messages_witness :
    ((broadcast ["a", "b"] c9Reg c9DataMsg (fun _ => SendResult.sent)).1.filter
        (fun p => p.1 = "b") = [] ∧
      "b" ∈ (broadcast ["a", "b"] c9Reg c9DataMsg (fun _ => SendResult.sent)).2.1 ∧
      "b" ∈ registeredIds
        (broadcast ["a", "b"] c9Reg c9DataMsg (fun _ => SendResult.sent)).2.2) ∧
    ((broadcast ["a", "b"] c9Reg c9RawMsg (fun _ => SendResult.sent)).1.filter
        (fun p => p.1 = "b") = [] ∧
      "b" ∈ (broadcast ["a", "b"] c9Reg c9RawMsg (fun _ => SendResult.sent)).2.1 ∧
      "b" ∈ registeredIds
        (broadcast ["a", "b"] c9Reg c9RawMsg (fun _ => SendResult.sent)).2.2) :=
  ⟨c9_blocked_viewer_zero_messages ["a", "b"] c9Reg c9DataMsg
      (fun _ => SendResult.sent) "b" (by decide) (by decide) (by decide),
   c9_blocked_viewer_zero_messages ["a", "b"] c9Reg c9RawMsg
      (fun _ => SendResult.sent) "b" (by decide) (by decide) (by decide)⟩

/-- C10: for an id absent from the registry, the allow endpoint reports
failure ("Viewer not found") and changes nothing, while the revoke
endpoint reports success ("Viewer blocked") although no registered
viewer was affected; revoking reports success from every registry
state. -/
theorem c10_allow_revoke_unregistered (reg reg2 : Registry) (v : String)
    (hnr : v ∉ registeredIds reg) :
    (apiAllowViewer reg v).2.success = false ∧
    (apiAllowViewer reg v).2.message = "Viewer not found" ∧
    (apiAllowViewer reg v).1 = reg ∧
    (apiRevokeViewer reg v).2.success = true ∧
    (apiRevokeViewer reg v).2.message = "Viewer blocked" ∧
    (apiRevokeViewer reg v).1.viewers = reg.viewers ∧
    (apiRevokeViewer reg2 v).2.success = true := by
  simp [apiAllowViewer, apiRevokeViewer, allowViewer, revokeViewer, hnr]

theorem c10_allow_revoke_unregistered_witness :
    (apiAllowViewer c9Reg "ghost").2.success = false ∧
    (apiAllowViewer c9Reg "ghost").2.message = "Viewer not found" ∧
    (apiAllowViewer c9Reg "ghost").1 = c9Reg ∧
    (apiRevokeViewer c9Reg "ghost").2.success = true ∧
    (apiRevokeViewer c9Reg "ghost").2.message = "Viewer blocked" ∧
    (apiRevokeViewer c9Reg "ghost").1.viewers = c9Reg.viewers ∧
    (apiRevokeViewer c9Reg "ghost").2.success = true :=
  c10_allow_revoke_unregistered c9Reg c9Reg "ghost" (by decide)

end Viewer

end JalDrishti
